import Mathlib

/-!
Verification of the sms-beacon core against its source.

The embedding models the stateful React components as explicit state
records and pure transition functions:

* `matchesKeyword` embeds the matcher expression `message.includes(keyword)`
  of `simulateIncomingSms`;
* `AppState`, `simulateIncomingSms`, `activateAlarm`, `updateKeyword` embed
  the `PhoneFinderApp` component state and its handlers, with the
  `setTimeout` countdowns represented as an explicit list of pending expiry
  times and `Date.now()` passed in as an explicit clock value (milliseconds);
* `GpsState`, `startLocation`, `resolveLocation`, `getCurrentLocation`,
  `classifyGeoError`, `locateButtonClick`, `autoLocateBody`,
  `effectInvocations` embed the `GpsTracker` component: the geolocation
  callback outcome is passed in explicitly, and the auto-locate `useEffect`
  is modelled by its dependency trace (React runs the effect at mount and
  whenever the dependency pair changes).

Strings are modelled as `List Char`.
-/

namespace SmsBeacon

abbrev Str := List Char

/-- Embeds JS `s.includes(pat)`: true iff `pat` occurs as a contiguous
substring of `s` (the empty pattern always occurs). -/
def strIncludes (s pat : Str) : Bool :=
  (List.range (s.length + 1)).any (fun i => decide ((s.drop i).take pat.length = pat))

/-- Embeds the matcher expression `message.includes(keyword)` used to compute
the `triggered` field in `simulateIncomingSms` (the spec's `matches(body, keyword)`). -/
def matchesKeyword (message keyword : Str) : Bool :=
  strIncludes message keyword

/-- Embeds `value.toUpperCase()` from the keyword input handler. -/
def toUpperStr (s : Str) : Str := s.map Char.toUpper

/-- Embeds the `SmsMessage` interface of `PhoneFinderApp`; `id` is the
`Date.now().toString()` value kept as the numeric clock reading, and
`timestamp` is the arrival clock reading (`new Date()`). -/
structure SmsMessage where
  id : Nat
  sender : Str
  message : Str
  timestamp : Nat
  triggered : Bool
deriving Repr, DecidableEq

/-- Embeds the `PhoneFinderApp` component state: the keyword, the alarm flag,
the bounded message list, and the pending `setTimeout` countdowns scheduled by
`activateAlarm`, kept as their absolute expiry clock times. -/
structure AppState where
  keyword : Str
  isAlarmActive : Bool
  smsMessages : List SmsMessage
  alarmTimers : List Nat
deriving Repr, DecidableEq

/-- Embeds the initial `useState` values of `PhoneFinderApp`. -/
def initialState : AppState :=
  { keyword := "ACHARCELULAR123".toList, isAlarmActive := false,
    smsMessages := [], alarmTimers := [] }

/-- Embeds `activateAlarm`: sets `isAlarmActive` to true and schedules a
`setTimeout` callback 3000 ms from the current clock; the callback (run
later) stops the oscillator and clears the flag. The source has no guard
against an already-active alarm. -/
def activateAlarm (now : Nat) (s : AppState) : AppState :=
  { s with isAlarmActive := true, alarmTimers := s.alarmTimers ++ [now + 3000] }

/-- The alarm flag observed at clock time `t`, assuming no further triggers:
every pending `setTimeout` whose expiry has passed has run its callback, and
each such callback sets `isAlarmActive` to false. -/
def alarmActiveAt (s : AppState) (t : Nat) : Bool :=
  if s.alarmTimers.any (fun e => e ≤ t) then false else s.isAlarmActive

/-- Embeds the `newSms` record built by `simulateIncomingSms`. -/
def mkSms (now : Nat) (sender message keyword : Str) : SmsMessage :=
  { id := now, sender := sender, message := message, timestamp := now,
    triggered := matchesKeyword message keyword }

/-- Embeds `simulateIncomingSms`: builds the message, prepends it keeping the
first 9 previously retained messages (`[newSms, ...prev.slice(0, 9)]`), and if
the message triggered, calls `activateAlarm`. -/
def simulateIncomingSms (now : Nat) (sender message : Str) (s : AppState) : AppState :=
  let newSms := mkSms now sender message s.keyword
  let s1 := { s with smsMessages := newSms :: s.smsMessages.take 9 }
  if newSms.triggered then activateAlarm now s1 else s1

/-- Embeds the keyword input handler `setKeyword(e.target.value.toUpperCase())`. -/
def updateKeyword (value : Str) (s : AppState) : AppState :=
  { s with keyword := toUpperStr value }

/-- Records a sequence of `(now, sender, message)` events in order. -/
def recordSeq (s : AppState) : List (Nat × Str × Str) → AppState
  | [] => s
  | (now, sender, message) :: rest =>
      recordSeq (simulateIncomingSms now sender message s) rest

/-- A sample sequence of eleven recorded events. -/
def elevenEvents : List (Nat × Str × Str) :=
  (List.range 11).map (fun i => (i, "a".toList, "m".toList))

/-- Two recordings falling in the same clock millisecond. -/
def sameMillisecondState : AppState :=
  simulateIncomingSms 5 "b".toList "y".toList
    (simulateIncomingSms 5 "a".toList "x".toList initialState)

/-- Embeds the `LocationData` interface of `GpsTracker`; the coordinate and
accuracy readings are opaque to the core logic and modelled as integers. -/
structure LocationData where
  latitude : Int
  longitude : Int
  accuracy : Int
  timestamp : Nat
deriving Repr, DecidableEq

/-- Embeds the `GpsTracker` component state: the held location, the
`isTracking` in-progress flag, and the error message. -/
structure GpsState where
  location : Option LocationData
  isTracking : Bool
  error : Str
deriving Repr, DecidableEq

/-- Embeds the initial `useState` values of `GpsTracker`. -/
def initialGpsState : GpsState :=
  { location := none, isTracking := false, error := [] }

/-- The outcome the platform geolocation service delivers to the callbacks of
`getCurrentPosition`: a position, or a `GeolocationPositionError` code. -/
inductive GeoResult where
  | success (latitude longitude accuracy : Int)
  | failure (code : Nat)
deriving Repr, DecidableEq

/-- Error text of the PERMISSION_DENIED branch. -/
def permissionDeniedMsg : Str := "Permissão de localização negada".toList

/-- Error text of the POSITION_UNAVAILABLE branch. -/
def positionUnavailableMsg : Str := "Localização indisponível".toList

/-- Error text of the TIMEOUT branch. -/
def timeoutMsg : Str := "Timeout ao obter localização".toList

/-- Error text of the default branch. -/
def unknownErrorMsg : Str := "Erro desconhecido".toList

/-- Error text of the missing-geolocation early return. -/
def unsupportedMsg : Str := "Geolocalização não suportada neste navegador".toList

/-- Embeds the `switch (error.code)` of the error callback; the
`GeolocationPositionError` constants are PERMISSION_DENIED = 1,
POSITION_UNAVAILABLE = 2, TIMEOUT = 3, and every other code falls to the
default branch. -/
def classifyGeoError (code : Nat) : Str :=
  if code = 1 then permissionDeniedMsg
  else if code = 2 then positionUnavailableMsg
  else if code = 3 then timeoutMsg
  else unknownErrorMsg

/-- Embeds the synchronous part of `getCurrentLocation`, up to the point the
platform request is issued: the missing-geolocation early return issues no
request; otherwise tracking is flagged, the error cleared, and one request
issued. Returns the number of platform requests issued together with the
component state while the request (if any) is pending. -/
def startLocation (geolocationSupported : Bool) (s : GpsState) : Nat × GpsState :=
  if ¬ geolocationSupported then
    (0, { s with error := unsupportedMsg })
  else
    (1, { s with isTracking := true, error := [] })

/-- Embeds the success and error callbacks passed to `getCurrentPosition`:
success stores the fresh location and clears tracking; failure stores the
classified error text and clears tracking. Neither issues a new request. -/
def resolveLocation (now : Nat) (result : GeoResult) (s : GpsState) : GpsState :=
  match result with
  | .success lat lng acc =>
      { s with location := some ⟨lat, lng, acc, now⟩, isTracking := false }
  | .failure code =>
      { s with error := classifyGeoError code, isTracking := false }

/-- Embeds one whole `getCurrentLocation` invocation whose platform outcome is
`result`: the number of platform requests issued and the final component
state. -/
def getCurrentLocation (geolocationSupported : Bool) (now : Nat) (result : GeoResult)
    (s : GpsState) : Nat × GpsState :=
  if ¬ geolocationSupported then
    (0, { s with error := unsupportedMsg })
  else
    (1, resolveLocation now result { s with isTracking := true, error := [] })

/-- Embeds a click on the locate button, which carries `disabled={isTracking}`:
a click while tracking does nothing; otherwise it invokes the synchronous part
of `getCurrentLocation`. -/
def locateButtonClick (geolocationSupported : Bool) (s : GpsState) : Nat × GpsState :=
  if s.isTracking then (0, s) else startLocation geolocationSupported s

/-- The dependency pair `[isAlarmActive, location]` of the auto-locate effect. -/
abbrev GpsDeps := Bool × Option LocationData

/-- Embeds the body of the auto-locate `useEffect`: whether it invokes
`getCurrentLocation`, namely when `isAlarmActive && !location`. -/
def autoLocateBody (deps : GpsDeps) : Bool :=
  deps.1 && deps.2.isNone

/-- Number of `getCurrentLocation` invocations the auto-locate effect makes
over a trace of render-time dependency snapshots: React runs the effect at
mount and after every render at which the dependency pair changed. -/
def effectInvocations : Option GpsDeps → List GpsDeps → Nat
  | _, [] => 0
  | none, d :: rest =>
      (if autoLocateBody d then 1 else 0) + effectInvocations (some d) rest
  | some prev, d :: rest =>
      if prev = d then effectInvocations (some d) rest
      else (if autoLocateBody d then 1 else 0) + effectInvocations (some d) rest

/-- A pending GPS state used to witness the re-entrancy behavior. -/
def pendingGpsState : GpsState :=
  { location := none, isTracking := true, error := [] }

/- ### Theorems -/

/-- The executable substring test agrees with the infix relation. -/
theorem strIncludes_eq_true_iff (s pat : Str) :
    strIncludes s pat = true ↔ pat <:+: s := by
  constructor
  · intro h
    rcases List.any_eq_true.mp h with ⟨i, _, hi⟩
    have htake : (s.drop i).take pat.length = pat := of_decide_eq_true hi
    refine ⟨s.take i, (s.drop i).drop pat.length, ?_⟩
    calc s.take i ++ pat ++ (s.drop i).drop pat.length
        = s.take i ++ ((s.drop i).take pat.length ++ (s.drop i).drop pat.length) := by
          rw [htake, List.append_assoc]
      _ = s.take i ++ s.drop i := by rw [List.take_append_drop]
      _ = s := List.take_append_drop i s
  · rintro ⟨t, u, rfl⟩
    apply List.any_eq_true.mpr
    refine ⟨t.length, ?_, ?_⟩
    · apply List.mem_range.mpr
      have : t.length ≤ (t ++ pat ++ u).length := by
        simp [List.length_append]
      omega
    · apply decide_eq_true
      rw [List.append_assoc, List.drop_left, List.take_left]

/-- C1: the message-matching operation returns true iff the body contains the
configured keyword as a contiguous case-sensitive substring; in particular the
concrete body `"ache meu acharcelular123 celular"`, which contains the keyword
`"ACHARCELULAR123"` only in lowercase, does not match it, even though the
lowercased keyword is a substring of the body. -/
theorem c1_matcher_contains_iff :
    (∀ body keyword : Str, matchesKeyword body keyword = true ↔ keyword <:+: body) ∧
    matchesKeyword "ache meu acharcelular123 celular".toList "ACHARCELULAR123".toList = false ∧
    strIncludes "ache meu acharcelular123 celular".toList "acharcelular123".toList = true := by
  refine ⟨fun body keyword => strIncludes_eq_true_iff body keyword, ?_, ?_⟩
  · decide
  · decide

/-- The recorded feed after one step: the new message is prepended and at most
the first nine previous messages are retained, whichever branch runs. -/
theorem simulateIncomingSms_messages (now : Nat) (sender message : Str) (s : AppState) :
    (simulateIncomingSms now sender message s).smsMessages
      = mkSms now sender message s.keyword :: s.smsMessages.take 9 := by
  unfold simulateIncomingSms
  dsimp only
  split <;> rfl

/-- Recording a message does not change the keyword. -/
theorem simulateIncomingSms_keyword (now : Nat) (sender message : Str) (s : AppState) :
    (simulateIncomingSms now sender message s).keyword = s.keyword := by
  unfold simulateIncomingSms
  dsimp only
  split <;> rfl

/-- Recording sets the alarm flag when the message matches and leaves it
unchanged otherwise. -/
theorem simulateIncomingSms_isAlarmActive (now : Nat) (sender message : Str) (s : AppState) :
    (simulateIncomingSms now sender message s).isAlarmActive
      = (matchesKeyword message s.keyword || s.isAlarmActive) := by
  unfold simulateIncomingSms
  dsimp only
  by_cases h : matchesKeyword message s.keyword
  · rw [if_pos]
    · simp [activateAlarm, h]
    · exact h
  · rw [if_neg]
    · simp [Bool.eq_false_iff.mpr h]
    · exact h

/-- Recording schedules a 3000 ms countdown exactly when the message matches. -/
theorem simulateIncomingSms_alarmTimers (now : Nat) (sender message : Str) (s : AppState) :
    (simulateIncomingSms now sender message s).alarmTimers
      = if matchesKeyword message s.keyword then s.alarmTimers ++ [now + 3000]
        else s.alarmTimers := by
  unfold simulateIncomingSms
  dsimp only [mkSms]
  by_cases h : matchesKeyword message s.keyword
  · rw [if_pos h, if_pos h]
    rfl
  · rw [if_neg h, if_neg h]

/-- C2 fails on the code: the keyword input handler performs no emptiness
check; updating with the empty string changes the keyword state of the
initial configuration instead of being rejected. -/
theorem c2_counterexample :
    ¬ ((updateKeyword [] initialState).keyword = initialState.keyword) := by
  decide

/-- C2 amended: the keyword update accepts any value, including the empty
string and whitespace-only strings, storing its uppercased form; subsequent
matching uses the newly stored value. In particular updating with a blank
keeps a blank keyword. -/
theorem c2_amended_update_unvalidated :
    (∀ (value : Str) (s : AppState), (updateKeyword value s).keyword = toUpperStr value) ∧
    (∀ (value : Str) (s : AppState) (now : Nat) (sender body : Str),
      (simulateIncomingSms now sender body (updateKeyword value s)).smsMessages.head?.map
          SmsMessage.triggered
        = some (matchesKeyword body (toUpperStr value))) ∧
    (updateKeyword " ".toList initialState).keyword = " ".toList := by
  refine ⟨fun value s => rfl, fun value s now sender body => ?_, by decide⟩
  rw [simulateIncomingSms_messages]
  rfl

/-- C10: the update operation as implemented permits reaching the empty
keyword; with an empty keyword every body matches, so every message recorded
while the keyword is empty carries `triggered = true` and activates the
alarm. -/
theorem c10_empty_keyword_matches_all :
    ((updateKeyword [] initialState).keyword = []) ∧
    (∀ body : Str, matchesKeyword body [] = true) ∧
    (∀ (now : Nat) (sender body : Str) (s : AppState), s.keyword = [] →
      ((simulateIncomingSms now sender body s).smsMessages.head?.map SmsMessage.triggered
          = some true ∧
        (simulateIncomingSms now sender body s).isAlarmActive = true)) := by
  have hmatch : ∀ body : Str, matchesKeyword body [] = true := fun body =>
    (strIncludes_eq_true_iff body []).mpr List.nil_infix
  refine ⟨by decide, hmatch, fun now sender body s hkw => ⟨?_, ?_⟩⟩
  · rw [simulateIncomingSms_messages]
    simp [mkSms, hkw, hmatch]
  · rw [simulateIncomingSms_isAlarmActive, hkw, hmatch]
    rfl

/-- C10 witness: recording the unrelated body `"oi"` while the keyword is
empty yields an active alarm. -/
theorem c10_witness :
    ({ initialState with keyword := [] } : AppState).keyword = [] ∧
    (simulateIncomingSms 7 "x".toList "oi".toList
        { initialState with keyword := [] }).isAlarmActive = true := by
  refine ⟨rfl, ?_⟩
  exact (c10_empty_keyword_matches_all.2.2 7 "x".toList "oi".toList
    { initialState with keyword := [] } rfl).2

/-- Truncating the tail of a ten-bounded list before appending does not change
its first ten elements. -/
theorem take_ten_cons_take_nine {α : Type} (A : List α) (a : α) (l : List α) :
    (A ++ a :: l.take 9).take 10 = (A ++ a :: l).take 10 := by
  rw [List.take_append_eq_append_take, List.take_append_eq_append_take]
  congr 1
  rcases Nat.lt_or_ge A.length 10 with h | h
  · obtain ⟨m, hm⟩ : ∃ m, 10 - A.length = m + 1 := ⟨9 - A.length, by omega⟩
    have hm9 : m ≤ 9 := by omega
    rw [hm, List.take_succ_cons, List.take_succ_cons, List.take_take,
      Nat.min_eq_left hm9]
  · have h0 : 10 - A.length = 0 := by omega
    rw [h0, List.take_zero, List.take_zero]

/-- One recording step leaves the feed with at most ten messages, whatever the
previous feed length. -/
theorem simulateIncomingSms_length_le (now : Nat) (sender message : Str) (s : AppState) :
    (simulateIncomingSms now sender message s).smsMessages.length ≤ 10 := by
  rw [simulateIncomingSms_messages]
  have := List.length_take_le 9 s.smsMessages
  simp only [List.length_cons]
  omega

/-- The feed after a recorded sequence is the first ten of the reversed
sequence of constructed messages followed by the prior feed, provided the
prior feed held at most ten messages. -/
theorem recordSeq_messages (L : List (Nat × Str × Str)) :
    ∀ s : AppState, s.smsMessages.length ≤ 10 →
      (recordSeq s L).smsMessages
        = ((L.map (fun e => mkSms e.1 e.2.1 e.2.2 s.keyword)).reverse
            ++ s.smsMessages).take 10 := by
  induction L with
  | nil =>
      intro s hs
      simp only [recordSeq, List.map_nil, List.reverse_nil, List.nil_append]
      exact (List.take_of_length_le hs).symm
  | cons x L ih =>
      intro s hs
      obtain ⟨now, sender, message⟩ := x
      have hstep := ih (simulateIncomingSms now sender message s)
        (simulateIncomingSms_length_le now sender message s)
      rw [recordSeq] at *
      rw [hstep, simulateIncomingSms_keyword, simulateIncomingSms_messages]
      rw [take_ten_cons_take_nine]
      rw [List.map_cons, List.reverse_cons, List.append_assoc, List.singleton_append]

/-- C4: from the initial empty feed, a sequence of more than ten recordings
leaves exactly the ten most recently recorded messages, most recent first
(the reversed event list truncated to ten); the feed then has length exactly
ten, and every individual recording step bounds the feed at ten messages. -/
theorem c4_feed_bounded_most_recent_first (L : List (Nat × Str × Str))
    (h : 10 < L.length) :
    (recordSeq initialState L).smsMessages
        = ((L.map (fun e => mkSms e.1 e.2.1 e.2.2 initialState.keyword)).reverse).take 10 ∧
    (recordSeq initialState L).smsMessages.length = 10 ∧
    (∀ (now : Nat) (sender message : Str) (s : AppState),
      (simulateIncomingSms now sender message s).smsMessages.length ≤ 10) := by
  have hmain := recordSeq_messages L initialState (by decide)
  have hfeed : (recordSeq initialState L).smsMessages
      = ((L.map (fun e => mkSms e.1 e.2.1 e.2.2 initialState.keyword)).reverse).take 10 := by
    rw [hmain]
    simp [initialState]
  refine ⟨hfeed, ?_, fun now sender message s =>
    simulateIncomingSms_length_le now sender message s⟩
  rw [hfeed, List.length_take, List.length_reverse, List.length_map]
  omega

/-- C4 witness: after the sample sequence of eleven recordings the feed holds
exactly ten messages. -/
theorem c4_witness :
    10 < elevenEvents.length ∧
    (recordSeq initialState elevenEvents).smsMessages.length = 10 := by
  refine ⟨by decide, ?_⟩
  exact (c4_feed_bounded_most_recent_first elevenEvents (by decide)).2.1

/-- C7: triggering the alarm from Idle with no pending countdown sets it
Active immediately, and the state observed at any clock time equals Active
precisely while fewer than 3000 ms have elapsed since the trigger — so the
alarm returns to Idle exactly 3 seconds after entry into Active, and the only
observable states in between are Active then Idle. -/
theorem c7_alarm_active_exactly_3s (t : Nat) (s : AppState)
    (_hIdle : s.isAlarmActive = false) (hTimers : s.alarmTimers = []) :
    (activateAlarm t s).isAlarmActive = true ∧
    (∀ u : Nat, alarmActiveAt (activateAlarm t s) u = decide (u < t + 3000)) := by
  refine ⟨rfl, fun u => ?_⟩
  simp only [alarmActiveAt, activateAlarm, hTimers, List.nil_append, List.any_cons,
    List.any_nil, Bool.or_false]
  by_cases h : t + 3000 ≤ u
  · rw [if_pos (by exact decide_eq_true h)]
    have : ¬ (u < t + 3000) := by omega
    simp [this]
  · rw [if_neg ?_]
    · have : u < t + 3000 := by omega
      simp [this]
    · simp only [decide_eq_true_eq]
      exact h

/-- C3 fails on the code: `activateAlarm` has no already-active guard, so a
second trigger during the active window schedules a second live countdown
timer — after a trigger at 0 ms and a re-trigger at 1000 ms, two countdowns
are pending at once. -/
theorem c3_counterexample :
    ¬ ((activateAlarm 1000 (activateAlarm 0 initialState)).alarmTimers.length ≤ 1) := by
  decide

/-- C3 amended: re-triggering during the active window schedules an additional
countdown (two countdown timers are then live, the code does not guard the
re-trigger), but the re-trigger leaves the Active flag set and neither resets
nor extends the countdown already running: the alarm state still reads Active
precisely until 3000 ms after the first trigger, so the elapsed time from the
first trigger until the return to Idle is unaffected by the second trigger. -/
theorem c3_amended_retrigger_spawns_timer (t tR : Nat) (s : AppState)
    (_hIdle : s.isAlarmActive = false) (hTimers : s.alarmTimers = [])
    (h1 : t ≤ tR) (h2 : tR < t + 3000) :
    (activateAlarm tR (activateAlarm t s)).alarmTimers = [t + 3000, tR + 3000] ∧
    (activateAlarm tR (activateAlarm t s)).isAlarmActive = true ∧
    (∀ u : Nat, alarmActiveAt (activateAlarm tR (activateAlarm t s)) u
      = decide (u < t + 3000)) := by
  refine ⟨by simp [activateAlarm, hTimers], rfl, fun u => ?_⟩
  simp only [alarmActiveAt, activateAlarm, hTimers, List.nil_append, List.cons_append,
    List.any_cons, List.any_nil, Bool.or_false]
  by_cases h : t + 3000 ≤ u
  · rw [if_pos]
    · have : ¬ (u < t + 3000) := by omega
      simp [this]
    · simp only [Bool.or_eq_true, decide_eq_true_eq]
      exact Or.inl h
  · rw [if_neg]
    · have : u < t + 3000 := by omega
      simp [this]
    · simp only [Bool.or_eq_true, decide_eq_true_eq]
      omega

/-- C3 amended witness: triggering at 0 ms and re-triggering at 1000 ms leaves
two pending countdowns, the alarm reads Active at 2999 ms and Idle at 3000 ms. -/
theorem c3_amended_witness :
    (activateAlarm 1000 (activateAlarm 0 initialState)).alarmTimers = [3000, 4000] ∧
    alarmActiveAt (activateAlarm 1000 (activateAlarm 0 initialState)) 2999 = true ∧
    alarmActiveAt (activateAlarm 1000 (activateAlarm 0 initialState)) 3000 = false := by
  have h := c3_amended_retrigger_spawns_timer 0 1000 initialState rfl rfl
    (by decide) (by decide)
  exact ⟨h.1, (h.2.2 2999).trans (by decide), (h.2.2 3000).trans (by decide)⟩

/-- C7 witness: a single trigger at clock 0 from the initial state reads
Active immediately and at 2999 ms, and Idle at 3000 ms. -/
theorem c7_witness :
    (activateAlarm 0 initialState).isAlarmActive = true ∧
    alarmActiveAt (activateAlarm 0 initialState) 2999 = true ∧
    alarmActiveAt (activateAlarm 0 initialState) 3000 = false := by
  have h := c7_alarm_active_exactly_3s 0 initialState rfl rfl
  exact ⟨h.1, (h.2 2999).trans (by decide), (h.2 3000).trans (by decide)⟩

/-- Renders whose dependency pair equals the previous one do not re-run the
auto-locate effect. -/
theorem effectInvocations_replicate_same (k : Nat) (d : GpsDeps) (rest : List GpsDeps) :
    effectInvocations (some d) (List.replicate k d ++ rest)
      = effectInvocations (some d) rest := by
  induction k with
  | zero => rfl
  | succ n ih =>
      rw [List.replicate_succ, List.cons_append, effectInvocations, if_pos rfl, ih]

/-- A constant dependency trace after the first run yields no further effect
runs. -/
theorem effectInvocations_replicate_same_nil (k : Nat) (d : GpsDeps) :
    effectInvocations (some d) (List.replicate k d) = 0 := by
  have h := effectInvocations_replicate_same k d []
  rw [List.append_nil] at h
  rw [h]
  rfl

/-- C5: recording a matching message invokes the alarm trigger — the alarm
flag is set and a fresh 3000 ms countdown scheduled; and over any render trace
in which the alarm makes a single transition into Active while the held
location stays fixed, the auto-locate effect invokes the acquisition exactly
once when no location is held and never when one is already held. -/
theorem c5_match_triggers_alarm_and_auto_locate :
    (∀ (now : Nat) (sender message : Str) (s : AppState),
      matchesKeyword message s.keyword = true →
        (simulateIncomingSms now sender message s).isAlarmActive = true ∧
        (simulateIncomingSms now sender message s).alarmTimers
          = s.alarmTimers ++ [now + 3000]) ∧
    (∀ (m n : Nat) (loc : Option LocationData),
      effectInvocations none
          (List.replicate (m + 1) ((false, loc) : GpsDeps)
            ++ List.replicate (n + 1) ((true, loc) : GpsDeps))
        = if loc.isNone then 1 else 0) := by
  constructor
  · intro now sender message s h
    constructor
    · rw [simulateIncomingSms_isAlarmActive, h, Bool.true_or]
    · rw [simulateIncomingSms_alarmTimers, if_pos h]
  · intro m n loc
    rw [List.replicate_succ, List.cons_append, effectInvocations,
      effectInvocations_replicate_same m ((false, loc) : GpsDeps),
      List.replicate_succ, effectInvocations]
    have hne : ((false, loc) : GpsDeps) ≠ ((true, loc) : GpsDeps) := by
      intro hcontra
      exact Bool.false_ne_true (congrArg Prod.fst hcontra)
    rw [if_neg hne, effectInvocations_replicate_same_nil n ((true, loc) : GpsDeps)]
    simp [autoLocateBody]

/-- C5 witness: recording a body containing the configured keyword from the
initial state activates the alarm and schedules the countdown; a trace that
goes Active once with no held location runs the acquisition once, and with a
held location runs it never. -/
theorem c5_witness :
    (simulateIncomingSms 3 "s".toList "oi ACHARCELULAR123".toList
        initialState).isAlarmActive = true ∧
    effectInvocations none
        (List.replicate 1 ((false, none) : GpsDeps)
          ++ List.replicate 1 ((true, none) : GpsDeps)) = 1 ∧
    effectInvocations none
        (List.replicate 1 ((false, some ⟨1, 2, 3, 4⟩) : GpsDeps)
          ++ List.replicate 1 ((true, some ⟨1, 2, 3, 4⟩) : GpsDeps)) = 0 := by
  refine ⟨?_, ?_, ?_⟩
  · exact (c5_match_triggers_alarm_and_auto_locate.1 3 "s".toList
      "oi ACHARCELULAR123".toList initialState (by decide)).1
  · exact (c5_match_triggers_alarm_and_auto_locate.2 0 0 none).trans (by decide)
  · exact (c5_match_triggers_alarm_and_auto_locate.2 0 0 (some ⟨1, 2, 3, 4⟩)).trans
      (by decide)

/-- C6: the five failure kinds carry pairwise distinct human-readable reasons;
every error-callback code is classified into exactly one of the four callback
kinds; a failed invocation stores the classified reason and ends tracking
while having issued exactly one request (no automatic retry); an invocation
issues at most one platform request; and the unsupported case is decided
before any platform request, issuing none and storing its own reason. -/
theorem c6_failure_classification :
    ([permissionDeniedMsg, positionUnavailableMsg, timeoutMsg, unknownErrorMsg,
        unsupportedMsg].Pairwise (fun a b => a ≠ b)) ∧
    (∀ code : Nat, classifyGeoError code ∈
        [permissionDeniedMsg, positionUnavailableMsg, timeoutMsg, unknownErrorMsg]) ∧
    (∀ (now code : Nat) (s : GpsState),
      (getCurrentLocation true now (GeoResult.failure code) s).2.error
          = classifyGeoError code ∧
      (getCurrentLocation true now (GeoResult.failure code) s).2.isTracking = false ∧
      (getCurrentLocation true now (GeoResult.failure code) s).1 = 1) ∧
    (∀ (supported : Bool) (now : Nat) (result : GeoResult) (s : GpsState),
      (getCurrentLocation supported now result s).1 ≤ 1) ∧
    (∀ (now : Nat) (result : GeoResult) (s : GpsState),
      getCurrentLocation false now result s = (0, { s with error := unsupportedMsg })) := by
  refine ⟨by decide, fun code => ?_, fun now code s => ⟨rfl, rfl, rfl⟩,
    fun supported now result s => ?_, fun now result s => rfl⟩
  · unfold classifyGeoError
    split
    · exact List.mem_cons_self _ _
    · split
      · simp
      · split
        · simp
        · simp
  · unfold getCurrentLocation
    split
    · exact Nat.zero_le 1
    · exact Nat.le_refl 1

/-- C8 fails on the code: the acquisition function itself has no re-entrancy
guard; with a request pending (`isTracking` already reporting in-progress), a
second direct invocation issues a second platform request instead of being
rejected or coalesced by the component. -/
theorem c8_counterexample :
    ((startLocation true initialGpsState).2.isTracking = true) ∧
    ((startLocation true (startLocation true initialGpsState).2).1 = 1) := by
  decide

/-- C8 amended: while a request is pending the component reports the distinct
in-progress status `isTracking = true`, and re-entrancy is prevented only by
caller discipline — the locate button is disabled while tracking, so a click
then invokes nothing — whereas the acquisition function itself, invoked
directly in a pending state, still issues another platform request. -/
theorem c8_amended_guard_is_ui_only (supported : Bool) (s : GpsState)
    (hPending : s.isTracking = true) :
    locateButtonClick supported s = (0, s) ∧
    (startLocation true s).2.isTracking = true ∧
    (startLocation true s).1 = 1 := by
  refine ⟨?_, rfl, rfl⟩
  unfold locateButtonClick
  rw [if_pos hPending]

/-- C8 amended witness: in the concrete pending state a button click invokes
nothing, while a direct invocation issues one more request. -/
theorem c8_amended_witness :
    locateButtonClick true pendingGpsState = (0, pendingGpsState) ∧
    (startLocation true pendingGpsState).1 = 1 := by
  have h := c8_amended_guard_is_ui_only true pendingGpsState rfl
  exact ⟨h.1, h.2.2⟩

/-- C9 fails on the code: ids come from `Date.now()`, so two distinct messages
recorded in the same clock millisecond carry the same id. -/
theorem c9_counterexample :
    sameMillisecondState.smsMessages.length = 2 ∧
    sameMillisecondState.smsMessages.map SmsMessage.id = [5, 5] ∧
    sameMillisecondState.smsMessages.Pairwise (fun m1 m2 => m1 ≠ m2) := by
  decide

/-- C9 amended: the id is exactly the arrival clock reading, so messages whose
arrival clock readings differ have distinct ids; messages are immutable once
constructed, but two recordings within the same clock millisecond share an
id. -/
theorem c9_amended_id_is_arrival_clock (n1 n2 : Nat) (s1 m1 kw1 s2 m2 kw2 : Str)
    (h : n1 ≠ n2) :
    (mkSms n1 s1 m1 kw1).id = n1 ∧
    (mkSms n1 s1 m1 kw1).id ≠ (mkSms n2 s2 m2 kw2).id := by
  exact ⟨rfl, h⟩

/-- C9 amended witness: messages recorded at clock readings 1 and 2 carry the
distinct ids 1 and 2. -/
theorem c9_amended_witness :
    (mkSms 1 "a".toList "x".toList "K".toList).id = 1 ∧
    (mkSms 1 "a".toList "x".toList "K".toList).id
      ≠ (mkSms 2 "b".toList "y".toList "K".toList).id := by
  exact c9_amended_id_is_arrival_clock 1 2 "a".toList "x".toList "K".toList
    "b".toList "y".toList "K".toList (by decide)

end SmsBeacon
